import Mathlib

/-!
Shallow embedding of the four Express request handlers of the
text-extraction service (src/backend/server.js and the three unnamed
variants part_000, part_001, part_002), together with theorems checking
the specification's claims about them.

JS strings are modelled as Lean `String`; `.length` and `.substring`
act on the character list `s.data` (a close model of JS code-unit
operations for the ASCII texts involved).  External HTTP calls are
modelled by environment records supplying the response each call would
receive; the filesystem is modelled by existence flags plus deletion
counters for the two request-scoped files (the uploaded file and the
rasterized temp image of part_000).
-/

/-- JS truthiness of an optional string: `undefined` and `""` are falsy. -/
def strFalsy : Option String → Bool
  | none => true
  | some s => s = ""

/-- JS `a || b` on strings (empty string is falsy). -/
def jsOrStr (a : Option String) (b : String) : String :=
  match a with
  | some s => if s = "" then b else s
  | none => b

/-- JS `String.prototype.startsWith`, on the character list. -/
def strStartsWith (s p : String) : Bool :=
  s.data.take p.data.length = p.data

/-- JS `String.prototype.trim`, on the character list: drop whitespace
from both ends. -/
def strTrim (s : String) : String :=
  String.mk (((s.data.dropWhile Char.isWhitespace).reverse.dropWhile
    Char.isWhitespace).reverse)

/-- A multipart file as multer presents it to the handlers. -/
structure IncomingFile where
  originalname : String
  mimetype : String
  size : Nat
  path : String
deriving DecidableEq, Repr

/-- The request-scoped filesystem: the uploaded temp file and (part_000
only) the rasterized page image, each with an existence flag and a
counter of successful deletions. -/
structure FS where
  uploadExists : Bool
  uploadDeletes : Nat
  tempImgExists : Bool
  tempImgDeletes : Nat
deriving DecidableEq, Repr

/-- `fs.unlink` on the uploaded file: succeeds (returns `true`) iff the
file exists; a failed unlink models the thrown ENOENT that every call
site catches. -/
def unlinkUpload (fs : FS) : Bool × FS :=
  if fs.uploadExists then
    (true, { uploadExists := false, uploadDeletes := fs.uploadDeletes + 1,
             tempImgExists := fs.tempImgExists, tempImgDeletes := fs.tempImgDeletes })
  else (false, fs)

/-- `fs.unlink` on the part_000 temp image. -/
def unlinkTempImg (fs : FS) : Bool × FS :=
  if fs.tempImgExists then
    (true, { uploadExists := fs.uploadExists, uploadDeletes := fs.uploadDeletes,
             tempImgExists := false, tempImgDeletes := fs.tempImgDeletes + 1 })
  else (false, fs)

/-- JSON response body: every field the four variants ever emit, each
optional so that absent fields are observable. -/
structure ResBody where
  success : Option Bool
  output : Option String
  error : Option String
  message : Option String
  details : Option String
deriving DecidableEq, Repr

def emptyBody : ResBody :=
  { success := none, output := none, error := none, message := none, details := none }

structure HttpResponse where
  status : Nat
  body : ResBody
deriving DecidableEq, Repr

/-- An error object reaching an Express error handler: its `.message`
and whether it is an instance of `multer.MulterError`. -/
structure JsError where
  message : String
  isMulterError : Bool
deriving DecidableEq, Repr

-- ---------- Chat-completion request payloads ----------

inductive ContentPart where
  | text (t : String)
  | imageUrl (url : String)
deriving DecidableEq, Repr

/-- A message `content` is either a plain string or an array of parts. -/
inductive MsgContent where
  | str (s : String)
  | parts (ps : List ContentPart)
deriving DecidableEq, Repr

structure ChatMsg where
  role : String
  content : MsgContent
deriving DecidableEq, Repr

/-- The JSON body each variant POSTs to the Groq chat-completions API.
`tokenField` records which JSON key carries the budget (`max_tokens`
in three variants, `max_completion_tokens` in part_002); `topP` and
`stream` are sent by part_002 only (its `stop: null` is omitted here
since null is the JSON default). -/
structure GroqRequest where
  model : String
  messages : List ChatMsg
  temperature : ℚ
  tokenField : String
  tokenLimit : Nat
  topP : Option ℚ
  stream : Option Bool
deriving DecidableEq, Repr

/-- server.js lines 184-189. -/
def serverRequestBody (messages : List ChatMsg) : GroqRequest :=
  { model := "llama3-70b-8192", messages := messages, temperature := 0,
    tokenField := "max_tokens", tokenLimit := 2048, topP := none, stream := none }

/-- part_000 lines 182-187. -/
def p0RequestBody (messages : List ChatMsg) : GroqRequest :=
  { model := "meta-llama/llama-4-scout-17b-16e-instruct", messages := messages,
    temperature := 0, tokenField := "max_tokens", tokenLimit := 1024,
    topP := none, stream := none }

/-- part_001 lines 111-116. -/
def p1RequestBody (messages : List ChatMsg) : GroqRequest :=
  { model := "meta-llama/llama-4-scout-17b-16e-instruct", messages := messages,
    temperature := 0, tokenField := "max_tokens", tokenLimit := 1024,
    topP := none, stream := none }

/-- part_002 lines 131-139: `temperature: 0.7`, `max_completion_tokens: 1024`,
`top_p: 1`, `stream: false`. -/
def p2RequestBody (messages : List ChatMsg) : GroqRequest :=
  { model := "meta-llama/llama-4-scout-17b-16e-instruct", messages := messages,
    temperature := 7/10, tokenField := "max_completion_tokens", tokenLimit := 1024,
    topP := some 1, stream := some false }

/-- The chat-completion HTTP exchange as the handlers observe it:
`ok`/`status`/`bodyText` from the raw response, and the two fields the
handlers read out of the parsed JSON (`choices[0].message.content` and
server.js's fallback `choices[0].text`), `none` when absent. -/
structure GroqResp where
  ok : Bool
  status : Nat
  bodyText : String
  content : Option String
  textAlt : Option String
deriving DecidableEq, Repr

-- ---------- LlamaParse upload and polling (server.js only) ----------

/-- The response to the LlamaParse `POST /upload` call: raw status/text
plus the `id` field of the parsed JSON body. -/
structure LlamaUploadResp where
  ok : Bool
  status : Nat
  text : String
  id : String
deriving DecidableEq, Repr

/-- server.js `uploadFileToLlamaParse` (lines 56-91): throws the
formatted error on a non-ok response, otherwise returns the job id. -/
def uploadFileToLlamaParse (r : LlamaUploadResp) : Except String String :=
  if r.ok then .ok r.id
  else .error ("Upload failed (" ++ toString r.status ++ "): " ++ r.text)

/-- One status-poll response, as the loop inspects it: HTTP 200 carrying
the markdown, HTTP 400 whose parsed body has a `detail` field, or any
other status with its body text. -/
inductive PollResp where
  | ok (markdown : String)
  | badRequest (detail : String)
  | other (status : Nat) (body : String)
deriving DecidableEq, Repr

/-- Result of the polling loop, carrying the number of polls performed. -/
inductive PollOutcome where
  | success (markdown : String) (polls : Nat)
  | failed (msg : String) (polls : Nat)
  | timeout (polls : Nat)
deriving DecidableEq, Repr

/-- server.js line 94. -/
def maxAttempts : Nat := 60

/-- server.js line 98: `setTimeout(resolve, 5000)`. -/
def pollIntervalMs : Nat := 5000

def notYetDetail : String := "Job not completed yet"

/-- JSON.stringify of the parsed 400 body, modelled as the object
holding just the `detail` field the code inspects. -/
def stringifyDetail (d : String) : String :=
  "\x7b\"detail\":\"" ++ d ++ "\"\x7d"

/-- The body of server.js `pollForResult`'s while-loop (lines 97-125),
`remaining = maxAttempts - attempts`.  `attempts` only advances on the
"not yet complete" branch, exactly as in the source. -/
def pollLoopAux (responses : Nat → PollResp) : Nat → Nat → PollOutcome
  | attempts, 0 => .timeout attempts
  | attempts, r + 1 =>
    match responses attempts with
    | .ok markdown => .success markdown (attempts + 1)
    | .badRequest detail =>
      if detail = notYetDetail then pollLoopAux responses (attempts + 1) r
      else .failed ("Error: " ++ stringifyDetail detail) (attempts + 1)
    | .other status body =>
      .failed ("Error checking job status (" ++ toString status ++ "): " ++ body)
        (attempts + 1)

/-- server.js `pollForResult` (lines 93-128), with the sequence of poll
responses supplied by the environment. -/
def pollForResult (responses : Nat → PollResp) : PollOutcome :=
  pollLoopAux responses 0 maxAttempts

-- ---------- server.js: the hosted-parser variant ----------

/-- server.js line 165. -/
def maxContentLength : Nat := 10000

def truncationMarker : String := "... [content truncated]"

/-- server.js lines 166-168: `parsedContent.length > maxContentLength ?
parsedContent.substring(0, maxContentLength) + "... [content truncated]"
: parsedContent`. -/
def truncateContent (s : String) : String :=
  if s.data.length > maxContentLength then
    String.mk (s.data.take maxContentLength) ++ truncationMarker
  else s

/-- server.js lines 173-176. -/
def serverMessages (prompt truncatedContent : String) : List ChatMsg :=
  [{ role := "system", content := .str "You are a helpful assistant." },
   { role := "user",
     content := .str ("Instruction: \x27" ++ prompt ++ "\x27\n\nContent:\n"
       ++ truncatedContent) }]

/-- Environment of one `POST /api/process` request to server.js: the
multipart fields and the responses of every external call the handler
could make. -/
structure ServerEnv where
  file : Option IncomingFile
  prompt : Option String
  llamaKeySet : Bool
  groqKeySet : Bool
  llamaUp : LlamaUploadResp
  pollResponses : Nat → PollResp
  groq : GroqResp

/-- Everything a handler run yields: the JSON response, the final
filesystem, how many upstream HTTP calls were made (parser upload,
each poll, completion call), and the completion request actually sent
(`none` if the completion call was never reached). -/
structure HandlerOutcome where
  response : HttpResponse
  fs : FS
  upstreamCalls : Nat
  sentRequest : Option GroqRequest

/-- The try-block of server.js's handler (lines 140-218), returning the
thrown message or the success output, plus the filesystem, the upstream
call count and the completion request sent. -/
def serverTry (env : ServerEnv) (fs : FS) :
    Except String String × FS × Nat × Option GroqRequest :=
  match env.file with
  | none => (.error "No file uploaded.", fs, 0, none)
  | some f =>
    -- const prompt = req.body?.prompt?.toString?.().trim()
    let promptT : Option String := env.prompt.map strTrim
    if strFalsy promptT then (.error "No prompt provided.", fs, 0, none)
    else
      let prompt := promptT.getD ""
      if ¬ env.llamaKeySet then
        (.error "LLAMA_CLOUD_API_KEY is not set in environment variables", fs, 0, none)
      else if ¬ env.groqKeySet then
        (.error "GROQ_API_KEY is not set in environment variables", fs, 0, none)
      else
        match uploadFileToLlamaParse env.llamaUp with
        | .error e => (.error e, fs, 1, none)
        | .ok _jobId =>
          match pollForResult env.pollResponses with
          | .timeout n =>
            (.error "Parsing timeout - job took too long to complete", fs, 1 + n, none)
          | .failed m n => (.error m, fs, 1 + n, none)
          | .success parsedContent n =>
            -- if (!parsedContent) throw ...  (empty string is falsy)
            if parsedContent = "" then
              (.error "No content returned by LlamaParse.", fs, 1 + n, none)
            else
              let truncatedContent := truncateContent parsedContent
              let req := serverRequestBody (serverMessages prompt truncatedContent)
              let calls := 1 + n + 1
              if ¬ env.groq.ok then
                (.error ("Groq API error (" ++ toString env.groq.status ++ "): "
                    ++ env.groq.bodyText), fs, calls, some req)
              else
                let outputText := jsOrStr env.groq.content (jsOrStr env.groq.textAlt "")
                if outputText = "" then
                  (.error "No output text received from Groq", fs, calls, some req)
                else
                  -- in-try cleanup (lines 206-212), unlink error swallowed
                  let fs1 := if f.path = "" then fs else (unlinkUpload fs).2
                  (.ok outputText, fs1, calls, some req)

/-- server.js `POST /api/process` (lines 138-237): the try-block, the
inline catch (HTTP 500, `success:false`), and the finally-block that
unlinks the upload once more with errors silently swallowed. -/
def processServer (env : ServerEnv) (fs0 : FS) : HandlerOutcome :=
  let t := serverTry env fs0
  let resp :=
    match t.1 with
    | .ok out =>
      { status := 200,
        body := { emptyBody with success := some true, output := some out } }
    | .error m =>
      { status := 500,
        body := { emptyBody with success := some false, error := some m } }
  let fs1 := t.2.1
  -- finally: if (filePath) try unlink catch ignore
  let fs2 :=
    match env.file with
    | some f => if f.path = "" then fs1 else (unlinkUpload fs1).2
    | none => fs1
  { response := resp, fs := fs2, upstreamCalls := t.2.2.1, sentRequest := t.2.2.2 }

-- ---------- part_000: PDF + image variant with OCR fallback ----------

/-- part_000 lines 103-114 (PDF with text layer). -/
def p0TextMessages (prompt extractedText : String) : List ChatMsg :=
  [{ role := "system",
     content := .str ("You are a text analysis assistant. Your sole purpose is to "
       ++ "analyze the provided text based on the user\x27s prompt. You must not add "
       ++ "any commentary, explanations, or conversational text unless explicitly asked.") },
   { role := "user",
     content := .parts [.text ("Prompt: " ++ prompt ++ "\n\nDocument Text:\n"
       ++ extractedText)] }]

/-- The system message shared by the image paths of part_000/part_001. -/
def extractionSystemMsg : String :=
  "You are a highly efficient text extraction assistant. Your sole purpose is to "
    ++ "extract and return text from an image. You must not add any commentary, "
    ++ "explanations, or conversational text. Your response should be nothing but "
    ++ "the extracted text."

/-- part_000 lines 137-153 and 162-177 (image content, data URL). -/
def p0ImageMessages (prompt mimetype base64Image : String) : List ChatMsg :=
  [{ role := "system", content := .str extractionSystemMsg },
   { role := "user",
     content := .parts [.text prompt,
       .imageUrl ("data:" ++ mimetype ++ ";base64," ++ base64Image)] }]

/-- part_000/part_001 error-handler middleware (part_000 lines 68-74,
part_001 lines 70-76): MulterError → HTTP 400, otherwise HTTP 500 with
`err.message || "Internal Server Error"`. -/
def p0ErrorHandler (e : JsError) : HttpResponse :=
  if e.isMulterError then
    { status := 400,
      body := { emptyBody with error := some ("File upload error: " ++ e.message) } }
  else
    { status := 500,
      body := { emptyBody with
        error := some (if e.message = "" then "Internal Server Error" else e.message) } }

/-- Environment of one request to part_000's handler: form fields plus
the outcome of each external operation (pdf-parse on the upload,
pdf-poppler rasterization, base64 of the upload bytes and of the
produced PNG, and the completion exchange). -/
structure P0Env where
  file : Option IncomingFile
  prompt : Option String
  fileBase64 : String
  pdfParseText : Except String String
  popplerResult : Except String Unit
  scanBase64 : String
  groq : GroqResp

/-- part_000/part_001 completion-call tail (part_000 lines 191-212):
non-ok → throw with status and body; missing/empty
`choices[0].message.content` → throw; else the output text. -/
def groqCallP0P1 (g : GroqResp) : Except String String :=
  if ¬ g.ok then
    .error ("Groq API Error: " ++ toString g.status ++ " - " ++ g.bodyText)
  else
    let outputText := g.content
    if strFalsy outputText then
      .error "Invalid response or missing content from Groq API."
    else .ok (outputText.getD "")

/-- The try-block of part_000's handler (lines 80-213): result, the
filesystem (poppler creates the temp PNG), whether `tempImagePath` was
assigned (governs the finally-block), the upstream call count and the
sent completion request. -/
def p0Try (env : P0Env) (fs : FS) :
    Except String String × FS × Bool × Nat × Option GroqRequest :=
  match env.file with
  | none => (.error "No file uploaded.", fs, false, 0, none)
  | some f =>
    if strFalsy env.prompt then (.error "No prompt provided.", fs, false, 0, none)
    else
      let prompt := env.prompt.getD ""
      if f.mimetype = "application/pdf" then
        match env.pdfParseText with
        | .error e => (.error e, fs, false, 0, none)
        | .ok extractedText =>
          -- if (extractedText && extractedText.trim().length > 0)
          if extractedText ≠ "" ∧ strTrim extractedText ≠ "" then
            let req := p0RequestBody (p0TextMessages prompt extractedText)
            (groqCallP0P1 env.groq, fs, false, 1, some req)
          else
            -- tempImagePath is assigned before the poppler call
            match env.popplerResult with
            | .error e => (.error e, fs, true, 0, none)
            | .ok _ =>
              let fs1 : FS := { fs with tempImgExists := true }
              let req := p0RequestBody (p0ImageMessages prompt "image/png" env.scanBase64)
              (groqCallP0P1 env.groq, fs1, true, 1, some req)
      else if strStartsWith f.mimetype "image/" then
        let req := p0RequestBody (p0ImageMessages prompt f.mimetype env.fileBase64)
        (groqCallP0P1 env.groq, fs, false, 1, some req)
      else (.error "Unsupported file type.", fs, false, 0, none)

/-- part_000 `POST /api/process` (lines 76-239): try-block, catch that
forwards to the error-handler middleware, and the finally-block that
unlinks the upload (if `filePath` set) and the temp image (if
`tempImagePath` set), tolerating ENOENT. -/
def processP0 (env : P0Env) (fs0 : FS) : HandlerOutcome :=
  let t := p0Try env fs0
  let resp :=
    match t.1 with
    | .ok out =>
      { status := 200,
        body := { emptyBody with success := some true, output := some out } }
    | .error m => p0ErrorHandler { message := m, isMulterError := false }
  let fs1 := t.2.1
  let tempSet := t.2.2.1
  -- finally: if (filePath) unlink upload; if (tempImagePath) unlink temp PNG
  let fs2 :=
    match env.file with
    | some f => if f.path = "" then fs1 else (unlinkUpload fs1).2
    | none => fs1
  let fs3 := if tempSet then (unlinkTempImg fs2).2 else fs2
  { response := resp, fs := fs3, upstreamCalls := t.2.2.2.1, sentRequest := t.2.2.2.2 }

-- ---------- part_001: image-only variant with a built-in prompt ----------

/-- part_001 line 88: the fixed extraction prompt; the handler never
reads `req.body.prompt`. -/
def p1Prompt : String :=
  "Extract all text from the provided image. Respond with only the extracted "
    ++ "text, nothing else. Do not add any introductory or concluding sentences "
    ++ "or conversational filler. Provide only the raw text."

/-- part_001 lines 93-108. -/
def p1Messages (mimetype base64Image : String) : List ChatMsg :=
  [{ role := "system", content := .str extractionSystemMsg },
   { role := "user",
     content := .parts [.text p1Prompt,
       .imageUrl ("data:" ++ mimetype ++ ";base64," ++ base64Image)] }]

/-- Environment of one request to part_001's handler.  `promptField` is
the `prompt` form field of the request; the source handler never reads
it. -/
structure P1Env where
  file : Option IncomingFile
  promptField : Option String
  fileBase64 : String
  groq : GroqResp

/-- part_001 `POST /api/process` (lines 79-157): `filePath =
req.file?.path`; a falsy path throws "No file uploaded."; otherwise the
image is base64-embedded with the built-in prompt and sent; catch
forwards to the error handler; finally unlinks the upload. -/
def processP1 (env : P1Env) (fs0 : FS) : HandlerOutcome :=
  let t : Except String String × Nat × Option GroqRequest :=
    match env.file with
    | none => (.error "No file uploaded.", 0, none)
    | some f =>
      if f.path = "" then (.error "No file uploaded.", 0, none)
      else
        let req := p1RequestBody (p1Messages f.mimetype env.fileBase64)
        (groqCallP0P1 env.groq, 1, some req)
  let resp :=
    match t.1 with
    | .ok out =>
      { status := 200,
        body := { emptyBody with success := some true, output := some out } }
    | .error m => p0ErrorHandler { message := m, isMulterError := false }
  -- finally: if (filePath) unlink, ENOENT tolerated
  let fs1 :=
    match env.file with
    | some f => if f.path = "" then fs0 else (unlinkUpload fs0).2
    | none => fs0
  { response := resp, fs := fs1, upstreamCalls := t.2.1, sentRequest := t.2.2 }

-- ---------- part_002: PDF-only variant with default-file fallback ----------

/-- part_002 lines 97-104: the bundled pdf-parse test file used when no
file is uploaded. -/
def defaultPdfPath : String :=
  "node_modules/pdf-parse/test/data/05-versions-space.pdf"

/-- part_002 lines 77-87: every error becomes HTTP 500; `message` is
`err.message` only when NODE_ENV=development (the `path` field of the
envelope is always undefined for plain Errors and is omitted here). -/
def p2ErrorHandler (development : Bool) (e : JsError) : HttpResponse :=
  { status := 500,
    body := { emptyBody with
                error := some "Something went wrong!",
                message := some
                  (if development then e.message else "Internal server error") } }

/-- part_002 line 129. -/
def p2CombinedPrompt (resumeText prompt : String) : String :=
  "Here is the resume text:\n" ++ resumeText ++ "\n\nUser\x27s question:\n" ++ prompt

/-- Environment of one request to part_002's handler.
`defaultPdfExists` is `fs.existsSync` on the bundled test file (used
only when no file was uploaded). -/
structure P2Env where
  file : Option IncomingFile
  prompt : Option String
  development : Bool
  defaultPdfExists : Bool
  pdfParseText : Except String String
  groq : GroqResp

/-- part_002 `POST /api/process` (lines 91-182).  No file → fall back to
the bundled test PDF; `existsSync` guard; `prompt || "No prompt
provided"`; parse; delete the upload (only if one was uploaded) before
the completion call; non-ok completion → early `res.status(...)` return
with an `API Error` envelope; missing content → throw; catch deletes
the upload if it still exists and forwards to the error handler. -/
def processP2 (env : P2Env) (fs0 : FS) : HandlerOutcome :=
  -- the try-block up to its result: either a final response (done) or a
  -- thrown message, each with the filesystem/calls/request at that point
  let fileExists := match env.file with
    | some _ => fs0.uploadExists
    | none => env.defaultPdfExists
  let filePathStr := match env.file with
    | some f => f.path
    | none => defaultPdfPath
  let t : Except (String × FS) (HttpResponse × FS) × Nat × Option GroqRequest :=
    if !fileExists then
      (.error ("File not found: " ++ filePathStr, fs0), 0, none)
    else
      let prompt := jsOrStr env.prompt "No prompt provided"
      match env.pdfParseText with
      | .error e => (.error (e, fs0), 0, none)
      | .ok resumeText =>
        -- delete uploaded file if it exists and is not the default
        let fs1 := match env.file with
          | some _ => (unlinkUpload fs0).2
          | none => fs0
        let req := p2RequestBody
          [{ role := "user", content := .str (p2CombinedPrompt resumeText prompt) }]
        if ¬ env.groq.ok then
          (.ok ({ status := env.groq.status,
                  body := { emptyBody with
                              error := some "API Error",
                              details := some env.groq.bodyText } }, fs1),
            1, some req)
        else
          match env.groq.content with
          | some c =>
            if c = "" then (.error ("Invalid response from Groq API", fs1), 1, some req)
            else
              (.ok ({ status := 200,
                      body := { emptyBody with
                                  success := some true,
                                  output := some c } }, fs1), 1, some req)
          | none => (.error ("Invalid response from Groq API", fs1), 1, some req)
  match t.1 with
  | .ok (resp, fs1) =>
    { response := resp, fs := fs1, upstreamCalls := t.2.1, sentRequest := t.2.2 }
  | .error (m, fs1) =>
    -- catch: if (req.file && fs.existsSync(filePath)) unlink
    let fs2 := match env.file with
      | some _ => if fs1.uploadExists then (unlinkUpload fs1).2 else fs1
      | none => fs1
    { response := p2ErrorHandler env.development { message := m, isMulterError := false },
      fs := fs2, upstreamCalls := t.2.1, sentRequest := t.2.2 }

-- ---------- Multer upload stage (file filter + size limit) ----------

/-- Multer middleware semantics for `upload.single("file")`: the
`fileFilter` callback runs first; an error it passes (a plain `Error`
in all four variants, hence not a `MulterError`) is forwarded verbatim
to the error handler; a file exceeding `limits.fileSize` aborts with a
`MulterError` whose message is "File too large". -/
inductive UploadGate where
  | pass
  | filterReject (msg : String)
  | sizeReject
deriving DecidableEq, Repr

def multerGate (filterErr : IncomingFile → Option String) (sizeLimit : Nat)
    (f : IncomingFile) : UploadGate :=
  match filterErr f with
  | some m => .filterReject m
  | none => if f.size > sizeLimit then .sizeReject else .pass

/-- The error object the multer stage hands to the error handler. -/
def gateError : UploadGate → Option JsError
  | .pass => none
  | .filterReject m => some { message := m, isMulterError := false }
  | .sizeReject => some { message := "File too large", isMulterError := true }

/-- server.js fileFilter (lines 37-40). -/
def serverFileFilter (f : IncomingFile) : Option String :=
  if strStartsWith f.mimetype "image/" || f.mimetype = "application/pdf" then none
  else some "Only image and PDF files are allowed."

/-- server.js line 41. -/
def serverSizeLimit : Nat := 25 * 1024 * 1024

/-- part_000 fileFilter (lines 45-51). -/
def p0FileFilter (f : IncomingFile) : Option String :=
  if strStartsWith f.mimetype "image/" || f.mimetype = "application/pdf" then none
  else some "Only image and PDF files are allowed."

/-- part_000 line 52. -/
def p0SizeLimit : Nat := 10 * 1024 * 1024

/-- part_001 fileFilter (lines 42-49). -/
def p1FileFilter (f : IncomingFile) : Option String :=
  if strStartsWith f.mimetype "image/" then none
  else some "Only image files are allowed."

/-- part_001 line 50. -/
def p1SizeLimit : Nat := 5 * 1024 * 1024

/-- part_002 fileFilter (lines 44-50). -/
def p2FileFilter (f : IncomingFile) : Option String :=
  if f.mimetype = "application/pdf" then none
  else some "Only PDF files are allowed!"

/-- part_002 line 51. -/
def p2SizeLimit : Nat := 5 * 1024 * 1024

/-- server.js error-handler middleware (lines 131-135): MulterError →
HTTP 400 with the raw message, otherwise HTTP 500. -/
def serverErrorHandler (e : JsError) : HttpResponse :=
  if e.isMulterError then
    { status := 400, body := { emptyBody with error := some e.message } }
  else
    { status := 500,
      body := { emptyBody with
        error := some (if e.message = "" then "Internal Server Error" else e.message) } }

/-- The response produced when the multer stage of the given variant
rejects the file (before the route handler runs); `none` when the file
passes to the handler. -/
def serverUploadReject (f : IncomingFile) : Option HttpResponse :=
  (gateError (multerGate serverFileFilter serverSizeLimit f)).map serverErrorHandler

def p0UploadReject (f : IncomingFile) : Option HttpResponse :=
  (gateError (multerGate p0FileFilter p0SizeLimit f)).map p0ErrorHandler

def p1UploadReject (f : IncomingFile) : Option HttpResponse :=
  (gateError (multerGate p1FileFilter p1SizeLimit f)).map p0ErrorHandler

def p2UploadReject (development : Bool) (f : IncomingFile) : Option HttpResponse :=
  (gateError (multerGate p2FileFilter p2SizeLimit f)).map (p2ErrorHandler development)

-- ---------- Stored filename (multer diskStorage) ----------

/-- The character class `[a-zA-Z0-9.-]` of the sanitization regex. -/
def allowedFilenameChar (c : Char) : Bool :=
  ('a' ≤ c && c ≤ 'z') || ('A' ≤ c && c ≤ 'Z') || ('0' ≤ c && c ≤ '9')
    || c = '.' || c = '-'

/-- The sanitization all four variants apply (server.js line 31,
part_000 line 38, part_001 line 35, part_002 line 37):
`originalname.replace(/[^a-zA-Z0-9.-]/g, "_")` — every disallowed
character is replaced by an underscore. -/
def sanitizeFilename (s : String) : String :=
  String.mk (s.data.map (fun c => if allowedFilenameChar c then c else '_'))

/-- The stored name `${Date.now()}-${sanitizedName}`. -/
def storedFilename (timestamp : Nat) (originalname : String) : String :=
  toString timestamp ++ "-" ++ sanitizeFilename originalname

/-- Modelled from the spec: "sanitization strips all characters outside
`[a-zA-Z0-9.-]`" — i.e. disallowed characters are removed, not
replaced.  Stated only to compare against `sanitizeFilename` above. -/
def sanitizeFilenameSpec (s : String) : String :=
  String.mk (s.data.filter allowedFilenameChar)

/-- The stored name under the spec's reading of sanitization. -/
def storedFilenameSpec (timestamp : Nat) (originalname : String) : String :=
  toString timestamp ++ "-" ++ sanitizeFilenameSpec originalname

-- ---------- Concrete inputs used by witnesses and counterexamples ----------

/-- A well-formed uploaded PDF file. -/
def fileW : IncomingFile :=
  { originalname := "a.pdf", mimetype := "application/pdf", size := 3, path := "p" }

/-- A well-formed uploaded image file. -/
def imgFileW : IncomingFile :=
  { originalname := "a.png", mimetype := "image/png", size := 3, path := "p" }

/-- The filesystem right after multer wrote the upload. -/
def fsW : FS :=
  { uploadExists := true, uploadDeletes := 0, tempImgExists := false, tempImgDeletes := 0 }

/-- A successful completion exchange. -/
def groqOkW : GroqResp :=
  { ok := true, status := 200, bodyText := "", content := some "hello", textAlt := none }

/-- A fully successful environment for server.js. -/
def serverEnvW : ServerEnv :=
  { file := some fileW, prompt := some "summarize", llamaKeySet := true,
    groqKeySet := true, llamaUp := { ok := true, status := 200, text := "", id := "job1" },
    pollResponses := fun _ => .ok "md", groq := groqOkW }

/-- A fully successful environment for part_000 (image upload). -/
def p0EnvW : P0Env :=
  { file := some imgFileW, prompt := some "extract", fileBase64 := "QUJD",
    pdfParseText := .ok "", popplerResult := .ok (), scanBase64 := "QUJD",
    groq := groqOkW }

/-- A fully successful environment for part_001. -/
def p1EnvW : P1Env :=
  { file := some imgFileW, promptField := some "ignored", fileBase64 := "QUJD",
    groq := groqOkW }

/-- A fully successful environment for part_002 (PDF upload). -/
def p2EnvW : P2Env :=
  { file := some fileW, prompt := some "question", development := false,
    defaultPdfExists := true, pdfParseText := .ok "resume text", groq := groqOkW }

/-- A part_002 request with no `file` field: the handler falls back to
the bundled test PDF and proceeds. -/
def p2EnvNoFile : P2Env :=
  { file := none, prompt := none, development := false,
    defaultPdfExists := true, pdfParseText := .ok "resume text", groq := groqOkW }

/-- A part_000 request with no `file` field. -/
def p0EnvNoFile : P0Env :=
  { file := none, prompt := some "extract", fileBase64 := "",
    pdfParseText := .ok "", popplerResult := .ok (), scanBase64 := "",
    groq := groqOkW }

/-- A server.js request with no `file` field. -/
def serverEnvNoFile : ServerEnv := { serverEnvW with file := none }

/-- A part_001 request with no `file` field. -/
def p1EnvNoFile : P1Env := { p1EnvW with file := none }

/-- A server.js request with a whitespace-only prompt (falsy after trim). -/
def serverEnvNoPrompt : ServerEnv := { serverEnvW with prompt := none }

/-- A part_000 request with an empty prompt. -/
def p0EnvNoPrompt : P0Env := { p0EnvW with prompt := some "" }

/-- A file of a MIME type outside every allow-list. -/
def txtFile : IncomingFile :=
  { originalname := "a.txt", mimetype := "text/plain", size := 10, path := "p" }

/-- A 6 MiB PDF, above part_002's 5 MiB ceiling. -/
def bigPdf : IncomingFile :=
  { originalname := "big.pdf", mimetype := "application/pdf",
    size := 6 * 1024 * 1024, path := "p" }

/-- A parsed-markdown string of 10001 characters. -/
def longContent : String := String.mk (List.replicate 10001 'a')

/-- A 26 MiB PDF, above server.js's 25 MiB ceiling. -/
def hugePdf : IncomingFile :=
  { originalname := "huge.pdf", mimetype := "application/pdf",
    size := 26 * 1024 * 1024, path := "p" }

/-- A 6 MiB image, above part_001's 5 MiB ceiling. -/
def bigImg : IncomingFile :=
  { originalname := "big.png", mimetype := "image/png",
    size := 6 * 1024 * 1024, path := "p" }

-- ---------- Theorems ----------

/-- Skipping a run of "not yet complete" polls advances the attempt
counter one-for-one. -/
theorem pollLoopAux_skip (responses : Nat → PollResp) (j : Nat) :
    ∀ a r : Nat, (∀ i, i < j → responses (a + i) = .badRequest notYetDetail) →
      pollLoopAux responses a (j + r) = pollLoopAux responses (a + j) r := by
  induction j with
  | zero => intro a r _; simp
  | succ j ih =>
    intro a r h
    have h0 : responses a = .badRequest notYetDetail := by
      have := h 0 (Nat.succ_pos j)
      simpa using this
    have hstep : pollLoopAux responses a (j + 1 + r)
        = pollLoopAux responses (a + 1) (j + r) := by
      have he : j + 1 + r = (j + r) + 1 := by omega
      rw [he]
      simp [pollLoopAux, h0]
    rw [hstep]
    have hrest := ih (a + 1) r (fun i hi => by
      have := h (i + 1) (by omega)
      have harith : a + 1 + i = a + (i + 1) := by omega
      rw [harith]
      exact this)
    rw [hrest]
    congr 1
    omega

/-- After `k ≤ 60` "not yet" polls the loop stands at attempt `k` with
`60 - k` attempts remaining. -/
theorem pollForResult_reach (responses : Nat → PollResp) (k : Nat) (hk : k ≤ 60)
    (h : ∀ i, i < k → responses i = .badRequest notYetDetail) :
    pollForResult responses = pollLoopAux responses k (60 - k) := by
  have h60 : maxAttempts = k + (60 - k) := by unfold maxAttempts; omega
  unfold pollForResult
  rw [h60]
  have hs := pollLoopAux_skip responses k 0 (60 - k) (fun i hi => by
    have := h i hi
    simpa using this)
  simpa using hs

/-- C1: in the hosted-parser variant the polling helper waits a fixed
5000 ms between polls and caps at 60 attempts; after any run of k < 60
"not yet complete" polls, an HTTP 200 completes with the markdown, an
HTTP 400 with a different detail fails immediately with the body
surfaced, any other status fails immediately with status and body
surfaced, and 60 "not yet complete" polls end in the timeout error
after exactly 60 polls. -/
theorem C1_polling_protocol (responses : Nat → PollResp) :
    pollIntervalMs = 5000 ∧ maxAttempts = 60 ∧
    (∀ k md, k < 60 → (∀ i, i < k → responses i = .badRequest notYetDetail) →
      responses k = .ok md →
      pollForResult responses = .success md (k + 1)) ∧
    (∀ k d, k < 60 → (∀ i, i < k → responses i = .badRequest notYetDetail) →
      responses k = .badRequest d → d ≠ notYetDetail →
      pollForResult responses = .failed ("Error: " ++ stringifyDetail d) (k + 1)) ∧
    (∀ k s b, k < 60 → (∀ i, i < k → responses i = .badRequest notYetDetail) →
      responses k = .other s b →
      pollForResult responses
        = .failed ("Error checking job status (" ++ toString s ++ "): " ++ b) (k + 1)) ∧
    ((∀ i, i < 60 → responses i = .badRequest notYetDetail) →
      pollForResult responses = .timeout 60) := by
  refine ⟨rfl, rfl, ?_, ?_, ?_, ?_⟩
  · intro k md hk h hok
    rw [pollForResult_reach responses k (le_of_lt hk) h]
    obtain ⟨m, hm⟩ : ∃ m, 60 - k = m + 1 := ⟨60 - k - 1, by omega⟩
    rw [hm]
    simp [pollLoopAux, hok]
  · intro k d hk h hbad hne
    rw [pollForResult_reach responses k (le_of_lt hk) h]
    obtain ⟨m, hm⟩ : ∃ m, 60 - k = m + 1 := ⟨60 - k - 1, by omega⟩
    rw [hm]
    simp [pollLoopAux, hbad, hne]
  · intro k s b hk h hoth
    rw [pollForResult_reach responses k (le_of_lt hk) h]
    obtain ⟨m, hm⟩ : ∃ m, 60 - k = m + 1 := ⟨60 - k - 1, by omega⟩
    rw [hm]
    simp [pollLoopAux, hoth]
  · intro h
    rw [pollForResult_reach responses 60 le_rfl h]
    simp [pollLoopAux]

/-- C1 witness: a mock that never completes times out after exactly 60
polls. -/
theorem C1_polling_protocol_witness :
    pollForResult (fun _ => .badRequest notYetDetail) = .timeout 60 :=
  (C1_polling_protocol (fun _ => .badRequest notYetDetail)).2.2.2.2.2
    (fun _ _ => rfl)

/-- server.js's try-block either leaves the filesystem alone or performs
the one in-try unlink of the upload. -/
theorem serverTry_fs (env : ServerEnv) (fs : FS) :
    (serverTry env fs).2.1 = fs ∨ (serverTry env fs).2.1 = (unlinkUpload fs).2 := by
  unfold serverTry
  dsimp only
  repeat' split
  all_goals simp

/-- part_000's try-block either leaves the filesystem alone, or (when it
rasterized a page) creates the temp image and reports `tempImagePath`
as set. -/
theorem p0Try_fs (env : P0Env) (fs : FS) :
    (p0Try env fs).2.1 = fs ∨
    ((p0Try env fs).2.1 = { fs with tempImgExists := true } ∧
      (p0Try env fs).2.2.1 = true) := by
  unfold p0Try
  dsimp only
  repeat' split
  all_goals simp

/-- C2: in the cited variants (server.js and part_002; part_000 with its
rasterized temp image, and part_001, included for completeness), a
request whose upload was written deletes the temporary upload file
exactly once on every exit path, and any created temp image ends up
deleted with at most one deletion recorded. -/
theorem C2_cleanup_exactly_once :
    (∀ (env : ServerEnv) (fs0 : FS) (f : IncomingFile), env.file = some f →
      f.path ≠ "" → fs0.uploadExists = true →
      (processServer env fs0).fs.uploadDeletes = fs0.uploadDeletes + 1 ∧
      (processServer env fs0).fs.uploadExists = false) ∧
    (∀ (env : P2Env) (fs0 : FS) (f : IncomingFile), env.file = some f →
      fs0.uploadExists = true →
      (processP2 env fs0).fs.uploadDeletes = fs0.uploadDeletes + 1 ∧
      (processP2 env fs0).fs.uploadExists = false) ∧
    (∀ (env : P0Env) (fs0 : FS) (f : IncomingFile), env.file = some f →
      f.path ≠ "" → fs0.uploadExists = true → fs0.tempImgExists = false →
      (processP0 env fs0).fs.uploadDeletes = fs0.uploadDeletes + 1 ∧
      (processP0 env fs0).fs.uploadExists = false ∧
      (processP0 env fs0).fs.tempImgExists = false ∧
      ((processP0 env fs0).fs.tempImgDeletes = fs0.tempImgDeletes ∨
        (processP0 env fs0).fs.tempImgDeletes = fs0.tempImgDeletes + 1)) ∧
    (∀ (env : P1Env) (fs0 : FS) (f : IncomingFile), env.file = some f →
      f.path ≠ "" → fs0.uploadExists = true →
      (processP1 env fs0).fs.uploadDeletes = fs0.uploadDeletes + 1 ∧
      (processP1 env fs0).fs.uploadExists = false) := by
  refine ⟨?_, ?_, ?_, ?_⟩
  · intro env fs0 f hf hp hex
    unfold processServer
    rcases serverTry_fs env fs0 with h | h <;>
      simp only [hf, h, if_neg hp] <;>
      simp [unlinkUpload, hex]
  · intro env fs0 f hf hex
    rcases hp : env.pdfParseText with e | txt
    · simp [processP2, hf, hp, hex, unlinkUpload]
    · rcases hok : env.groq.ok
      · simp [processP2, hf, hp, hex, hok, unlinkUpload]
      · rcases hc : env.groq.content with _ | c
        · simp [processP2, hf, hp, hex, hok, hc, unlinkUpload]
        · rcases eq_or_ne c "" with hce | hce <;>
            simp [processP2, hf, hp, hex, hok, hc, hce, unlinkUpload]
  · intro env fs0 f hf hp hex htmp
    unfold processP0
    rcases p0Try_fs env fs0 with h | ⟨h, hset⟩
    · simp only [hf, h, if_neg hp]
      rcases hts : (p0Try env fs0).2.2.1 <;>
        simp [hts, unlinkUpload, unlinkTempImg, hex, htmp]
    · simp only [hf, h, hset, if_neg hp]
      simp [unlinkUpload, unlinkTempImg, hex, htmp]
  · intro env fs0 f hf hp hex
    unfold processP1
    simp only [hf, if_neg hp]
    simp [unlinkUpload, hex]

/-- C2 witness: successful runs of the four handlers on a written upload
record exactly one deletion. -/
theorem C2_cleanup_exactly_once_witness :
    (processServer serverEnvW fsW).fs.uploadDeletes = 1 ∧
    (processP2 p2EnvW fsW).fs.uploadDeletes = 1 ∧
    (processP0 p0EnvW fsW).fs.uploadDeletes = 1 ∧
    (processP1 p1EnvW fsW).fs.uploadDeletes = 1 := by
  refine ⟨?_, ?_, ?_, ?_⟩
  · have h := (C2_cleanup_exactly_once.1 serverEnvW fsW fileW rfl (by decide) rfl).1
    simpa [fsW] using h
  · have h := (C2_cleanup_exactly_once.2.1 p2EnvW fsW fileW rfl rfl).1
    simpa [fsW] using h
  · have h := (C2_cleanup_exactly_once.2.2.1 p0EnvW fsW imgFileW rfl (by decide) rfl rfl).1
    simpa [fsW] using h
  · have h := (C2_cleanup_exactly_once.2.2.2 p1EnvW fsW imgFileW rfl (by decide) rfl).1
    simpa [fsW] using h

/-- C3 counterexample: in part_002, a request with no `file` field is
not answered with the no-file error — the handler falls back to the
bundled test PDF, makes an upstream completion call, and succeeds. -/
theorem C3_no_file_counterexample :
    ¬ ((processP2 p2EnvNoFile fsW).response.body.success = some false ∧
       (processP2 p2EnvNoFile fsW).response.body.error = some "No file uploaded." ∧
       (processP2 p2EnvNoFile fsW).upstreamCalls = 0) := by
  decide

/-- C3 amended: server.js answers a no-file request with HTTP 500,
`success:false` and error "No file uploaded." and zero upstream calls;
part_000/part_001 answer with HTTP 500 and the same `error` but no
`success` field, and zero upstream calls; part_002 never produces the
no-file error and, when the bundled test PDF exists and parses, makes
one upstream call. -/
theorem C3_no_file_amended :
    (∀ (env : ServerEnv) (fs0 : FS), env.file = none →
      (processServer env fs0).response.status = 500 ∧
      (processServer env fs0).response.body.success = some false ∧
      (processServer env fs0).response.body.error = some "No file uploaded." ∧
      (processServer env fs0).upstreamCalls = 0) ∧
    (∀ (env : P0Env) (fs0 : FS), env.file = none →
      (processP0 env fs0).response.status = 500 ∧
      (processP0 env fs0).response.body.error = some "No file uploaded." ∧
      (processP0 env fs0).response.body.success = none ∧
      (processP0 env fs0).upstreamCalls = 0) ∧
    (∀ (env : P1Env) (fs0 : FS), env.file = none →
      (processP1 env fs0).response.status = 500 ∧
      (processP1 env fs0).response.body.error = some "No file uploaded." ∧
      (processP1 env fs0).response.body.success = none ∧
      (processP1 env fs0).upstreamCalls = 0) ∧
    (∀ (env : P2Env) (fs0 : FS), env.file = none →
      (processP2 env fs0).response.body.error ≠ some "No file uploaded." ∧
      (env.defaultPdfExists = true → ∀ t, env.pdfParseText = .ok t →
        (processP2 env fs0).upstreamCalls = 1)) := by
  refine ⟨?_, ?_, ?_, ?_⟩
  · intro env fs0 hf
    simp [processServer, serverTry, hf, emptyBody]
  · intro env fs0 hf
    simp [processP0, p0Try, hf, p0ErrorHandler, emptyBody]
  · intro env fs0 hf
    simp [processP1, hf, p0ErrorHandler, emptyBody]
  · intro env fs0 hf
    constructor
    · rcases hd : env.defaultPdfExists
      · simp [processP2, hf, hd, p2ErrorHandler, emptyBody]
      · rcases hp : env.pdfParseText with e | txt
        · simp [processP2, hf, hd, hp, p2ErrorHandler, emptyBody]
        · rcases hok : env.groq.ok
          · simp [processP2, hf, hd, hp, hok, p2ErrorHandler, emptyBody]
          · rcases hc : env.groq.content with _ | c
            · simp [processP2, hf, hd, hp, hok, hc, p2ErrorHandler, emptyBody]
            · rcases eq_or_ne c "" with hce | hce <;>
                simp [processP2, hf, hd, hp, hok, hc, hce, p2ErrorHandler, emptyBody]
    · intro hd t ht
      rcases hok : env.groq.ok
      · simp [processP2, hf, hd, ht, hok]
      · rcases hc : env.groq.content with _ | c
        · simp [processP2, hf, hd, ht, hok, hc]
        · rcases eq_or_ne c "" with hce | hce <;>
            simp [processP2, hf, hd, ht, hok, hc, hce]

/-- C3 witness: concrete instances of each clause of the amended claim. -/
theorem C3_no_file_amended_witness :
    (processServer serverEnvNoFile fsW).upstreamCalls = 0 ∧
    (processP0 p0EnvNoFile fsW).response.body.error = some "No file uploaded." ∧
    (processP1 p1EnvNoFile fsW).response.body.success = none ∧
    (processP2 p2EnvNoFile fsW).upstreamCalls = 1 :=
  ⟨(C3_no_file_amended.1 serverEnvNoFile fsW rfl).2.2.2,
   (C3_no_file_amended.2.1 p0EnvNoFile fsW rfl).2.1,
   (C3_no_file_amended.2.2.1 p1EnvNoFile fsW rfl).2.2.1,
   (C3_no_file_amended.2.2.2 p2EnvNoFile fsW rfl).2 rfl "resume text" rfl⟩

/-- C4: in the two variants that require the prompt (server.js and
part_000), a request whose prompt is missing (or trims to empty where
trimming applies) is answered with a validation failure and zero
upstream calls are made. -/
theorem C4_missing_prompt_no_upstream :
    (∀ (env : ServerEnv) (fs0 : FS), strFalsy (env.prompt.map strTrim) = true →
      (processServer env fs0).upstreamCalls = 0 ∧
      (processServer env fs0).response.status = 500 ∧
      (processServer env fs0).response.body.success = some false ∧
      (env.file.isSome = true →
        (processServer env fs0).response.body.error = some "No prompt provided.")) ∧
    (∀ (env : P0Env) (fs0 : FS), strFalsy env.prompt = true →
      (processP0 env fs0).upstreamCalls = 0 ∧
      (processP0 env fs0).response.status = 500 ∧
      (processP0 env fs0).response.body.success = none ∧
      (env.file.isSome = true →
        (processP0 env fs0).response.body.error = some "No prompt provided.")) := by
  constructor
  · intro env fs0 hp
    rcases hf : env.file with _ | f <;>
      simp [processServer, serverTry, hf, hp, emptyBody]
  · intro env fs0 hp
    rcases hf : env.file with _ | f <;>
      simp [processP0, p0Try, hf, hp, p0ErrorHandler, emptyBody]

/-- C4 witness: concrete promptless requests make zero upstream calls
and carry the validation message. -/
theorem C4_missing_prompt_no_upstream_witness :
    (processServer serverEnvNoPrompt fsW).upstreamCalls = 0 ∧
    (processServer serverEnvNoPrompt fsW).response.body.error = some "No prompt provided." ∧
    (processP0 p0EnvNoPrompt fsW).upstreamCalls = 0 ∧
    (processP0 p0EnvNoPrompt fsW).response.body.error = some "No prompt provided." :=
  ⟨(C4_missing_prompt_no_upstream.1 serverEnvNoPrompt fsW rfl).1,
   (C4_missing_prompt_no_upstream.1 serverEnvNoPrompt fsW rfl).2.2.2 rfl,
   (C4_missing_prompt_no_upstream.2 p0EnvNoPrompt fsW rfl).1,
   (C4_missing_prompt_no_upstream.2 p0EnvNoPrompt fsW rfl).2.2.2 rfl⟩

/-- C5 counterexample: the completion request part_002 actually sends
(here on a successful no-file fallback run) carries temperature 0.7,
not 0. -/
theorem C5_temperature_counterexample :
    ((processP2 p2EnvNoFile fsW).sentRequest.map GroqRequest.temperature
      = some (7/10)) ∧
    ((processP2 p2EnvNoFile fsW).sentRequest.map GroqRequest.temperature
      ≠ some 0) := by
  constructor
  · rfl
  · intro h
    simp [processP2, p2EnvNoFile, fsW, p2RequestBody, groqOkW] at h

/-- C5 amended: every variant sends a fixed model identifier and a token
budget within 1024-2048; server.js, part_000 and part_001 use
temperature 0 with `max_tokens` 2048/1024/1024, while part_002 uses
temperature 0.7 with `max_completion_tokens` 1024. -/
theorem C5_completion_request_parameters (msgs : List ChatMsg) :
    (serverRequestBody msgs).model = "llama3-70b-8192" ∧
    (serverRequestBody msgs).temperature = 0 ∧
    (serverRequestBody msgs).tokenField = "max_tokens" ∧
    (serverRequestBody msgs).tokenLimit = 2048 ∧
    (p0RequestBody msgs).model = "meta-llama/llama-4-scout-17b-16e-instruct" ∧
    (p0RequestBody msgs).temperature = 0 ∧
    (p0RequestBody msgs).tokenField = "max_tokens" ∧
    (p0RequestBody msgs).tokenLimit = 1024 ∧
    (p1RequestBody msgs).model = "meta-llama/llama-4-scout-17b-16e-instruct" ∧
    (p1RequestBody msgs).temperature = 0 ∧
    (p1RequestBody msgs).tokenLimit = 1024 ∧
    (p2RequestBody msgs).model = "meta-llama/llama-4-scout-17b-16e-instruct" ∧
    (p2RequestBody msgs).temperature = 7/10 ∧
    (p2RequestBody msgs).tokenField = "max_completion_tokens" ∧
    (p2RequestBody msgs).tokenLimit = 1024 ∧
    1024 ≤ (serverRequestBody msgs).tokenLimit ∧
    (serverRequestBody msgs).tokenLimit ≤ 2048 ∧
    1024 ≤ (p2RequestBody msgs).tokenLimit ∧
    (p2RequestBody msgs).tokenLimit ≤ 2048 := by
  refine ⟨rfl, rfl, rfl, rfl, rfl, rfl, rfl, rfl, rfl, rfl, rfl, rfl, rfl, rfl,
    rfl, ?_, ?_, ?_, ?_⟩ <;> simp [serverRequestBody, p2RequestBody]

/-- C6 counterexample: a disallowed MIME type is rejected through a
plain `Error` (not a `MulterError`) and therefore surfaces as HTTP 500,
not 400, in part_000; in part_002 even an oversize PDF surfaces as 500
because its error handler maps everything to 500. -/
theorem C6_validation_status_counterexample :
    (p0UploadReject txtFile).map HttpResponse.status = some 500 ∧
    (p0UploadReject txtFile).map HttpResponse.status ≠ some 400 ∧
    (p2UploadReject false bigPdf).map HttpResponse.status = some 500 ∧
    (p2UploadReject false bigPdf).map HttpResponse.status ≠ some 400 := by
  refine ⟨rfl, by decide, rfl, by decide⟩

/-- C6 amended: an oversize file of an allow-listed MIME type is
rejected with HTTP 400 (a `MulterError`) in server.js, part_000 and
part_001; a disallowed MIME type is rejected through a plain `Error`
and surfaces as HTTP 500 in those variants; in part_002 every upload
rejection (size or MIME) surfaces as HTTP 500. -/
theorem C6_upload_validation_amended :
    (∀ f : IncomingFile,
      (strStartsWith f.mimetype "image/" || f.mimetype = "application/pdf") = true →
      f.size > serverSizeLimit →
      (serverUploadReject f).map HttpResponse.status = some 400) ∧
    (∀ f : IncomingFile,
      (strStartsWith f.mimetype "image/" || f.mimetype = "application/pdf") = false →
      (serverUploadReject f).map HttpResponse.status = some 500) ∧
    (∀ f : IncomingFile,
      (strStartsWith f.mimetype "image/" || f.mimetype = "application/pdf") = true →
      f.size > p0SizeLimit →
      (p0UploadReject f).map HttpResponse.status = some 400) ∧
    (∀ f : IncomingFile,
      (strStartsWith f.mimetype "image/" || f.mimetype = "application/pdf") = false →
      (p0UploadReject f).map HttpResponse.status = some 500) ∧
    (∀ f : IncomingFile, strStartsWith f.mimetype "image/" = true →
      f.size > p1SizeLimit →
      (p1UploadReject f).map HttpResponse.status = some 400) ∧
    (∀ f : IncomingFile, strStartsWith f.mimetype "image/" = false →
      (p1UploadReject f).map HttpResponse.status = some 500) ∧
    (∀ (dev : Bool) (f : IncomingFile),
      multerGate p2FileFilter p2SizeLimit f ≠ .pass →
      (p2UploadReject dev f).map HttpResponse.status = some 500) := by
  refine ⟨?_, ?_, ?_, ?_, ?_, ?_, ?_⟩
  · intro f hm hs
    simp [serverUploadReject, multerGate, serverFileFilter, hm, hs, gateError,
      serverErrorHandler]
  · intro f hm
    simp [serverUploadReject, multerGate, serverFileFilter, hm, gateError,
      serverErrorHandler]
  · intro f hm hs
    simp [p0UploadReject, multerGate, p0FileFilter, hm, hs, gateError, p0ErrorHandler]
  · intro f hm
    simp [p0UploadReject, multerGate, p0FileFilter, hm, gateError, p0ErrorHandler]
  · intro f hm hs
    simp [p1UploadReject, multerGate, p1FileFilter, hm, hs, gateError, p0ErrorHandler]
  · intro f hm
    simp [p1UploadReject, multerGate, p1FileFilter, hm, gateError, p0ErrorHandler]
  · intro dev f hg
    rcases hcase : multerGate p2FileFilter p2SizeLimit f with _ | m | _
    · exact absurd hcase hg
    · simp [p2UploadReject, hcase, gateError, p2ErrorHandler]
    · simp [p2UploadReject, hcase, gateError, p2ErrorHandler]

/-- C6 witness: concrete oversize and wrong-type uploads hit each clause. -/
theorem C6_upload_validation_amended_witness :
    (serverUploadReject hugePdf).map HttpResponse.status = some 400 ∧
    (serverUploadReject txtFile).map HttpResponse.status = some 500 ∧
    (p1UploadReject bigImg).map HttpResponse.status = some 400 ∧
    (p2UploadReject false bigPdf).map HttpResponse.status = some 500 :=
  ⟨C6_upload_validation_amended.1 hugePdf (by decide) (by decide),
   C6_upload_validation_amended.2.1 txtFile (by decide),
   C6_upload_validation_amended.2.2.2.2.1 bigImg (by decide) (by decide),
   C6_upload_validation_amended.2.2.2.2.2.2 false bigPdf (by decide)⟩

/-- A successful try-block result in server.js carries a non-empty
output (the `!outputText` guard). -/
theorem serverTry_ok_ne_empty (env : ServerEnv) (fs : FS) (out : String)
    (h : (serverTry env fs).1 = .ok out) : out ≠ "" := by
  unfold serverTry at h
  dsimp only at h
  repeat' split at h
  all_goals simp_all

/-- A successful completion-call tail in part_000/part_001 carries a
non-empty output. -/
theorem groqCallP0P1_ok_ne_empty (g : GroqResp) (out : String)
    (h : groqCallP0P1 g = .ok out) : out ≠ "" := by
  rcases hok : g.ok
  · simp [groqCallP0P1, hok] at h
  · rcases hc : g.content with _ | c
    · simp [groqCallP0P1, hok, hc, strFalsy] at h
    · rcases eq_or_ne c "" with hce | hce
      · simp [groqCallP0P1, hok, hc, strFalsy, hce] at h
      · simp [groqCallP0P1, hok, hc, strFalsy, hce] at h
        simp [← h, hce]

/-- A successful try-block result in part_000 carries a non-empty
output. -/
theorem p0Try_ok_ne_empty (env : P0Env) (fs : FS) (out : String)
    (h : (p0Try env fs).1 = .ok out) : out ≠ "" := by
  unfold p0Try at h
  dsimp only at h
  repeat' split at h
  all_goals
    first
      | exact groqCallP0P1_ok_ne_empty env.groq out h
      | simp_all

/-- The part_000/part_001 error-handler body never carries a `success`
field and always carries an `error` message. -/
theorem p0ErrorHandler_shape (e : JsError) :
    (p0ErrorHandler e).body.success = none ∧
    (p0ErrorHandler e).body.error ≠ none ∧
    (p0ErrorHandler e).body.output = none := by
  unfold p0ErrorHandler
  split <;> simp [emptyBody]

/-- part_002's response-body shape: success responses carry non-empty
output; everything else has no `success` field and a non-`none` error. -/
theorem processP2_response_shape (env : P2Env) (fs0 : FS) :
    ((processP2 env fs0).response.body.success = some true →
      ∃ s, (processP2 env fs0).response.body.output = some s ∧ s ≠ "") ∧
    ((processP2 env fs0).response.body.success ≠ some true →
      (processP2 env fs0).response.body.success = none ∧
      (processP2 env fs0).response.body.error ≠ none) := by
  rcases hf : env.file with _ | f <;> rcases hd : env.defaultPdfExists <;>
    rcases hu : fs0.uploadExists <;> rcases hp : env.pdfParseText with e | txt <;>
    rcases hok : env.groq.ok <;> rcases hc : env.groq.content with _ | c <;>
    simp [processP2, hf, hd, hu, hp, hok, hc, p2ErrorHandler, emptyBody] <;>
    rcases eq_or_ne c "" with hce | hce <;>
    simp [hce, emptyBody]

/-- C7 counterexample: part_000's no-file failure response (HTTP 500)
carries no `success` field at all, so failure responses do not all
contain `success:false`. -/
theorem C7_missing_success_field_counterexample :
    (processP0 p0EnvNoFile fsW).response.status = 500 ∧
    (processP0 p0EnvNoFile fsW).response.body.error = some "No file uploaded." ∧
    (processP0 p0EnvNoFile fsW).response.body.success ≠ some false := by
  decide

/-- C7 amended: in every variant a success response is
`{success:true, output}` with non-empty output (empty or missing
completion content becomes an error); every failure response carries a
message field, but only server.js's failure envelope includes
`success:false` — part_000/part_001/part_002 failure bodies have no
`success` field. -/
theorem C7_response_envelope :
    (∀ (env : ServerEnv) (fs0 : FS),
      ((processServer env fs0).response.body.success = some true →
        ∃ s, (processServer env fs0).response.body.output = some s ∧ s ≠ "") ∧
      ((processServer env fs0).response.body.success ≠ some true →
        (processServer env fs0).response.status = 500 ∧
        (processServer env fs0).response.body.success = some false ∧
        (processServer env fs0).response.body.error ≠ none)) ∧
    (∀ (env : P0Env) (fs0 : FS),
      ((processP0 env fs0).response.body.success = some true →
        ∃ s, (processP0 env fs0).response.body.output = some s ∧ s ≠ "") ∧
      ((processP0 env fs0).response.body.success ≠ some true →
        (processP0 env fs0).response.status = 500 ∧
        (processP0 env fs0).response.body.success = none ∧
        (processP0 env fs0).response.body.error ≠ none)) ∧
    (∀ (env : P1Env) (fs0 : FS),
      ((processP1 env fs0).response.body.success = some true →
        ∃ s, (processP1 env fs0).response.body.output = some s ∧ s ≠ "") ∧
      ((processP1 env fs0).response.body.success ≠ some true →
        (processP1 env fs0).response.status = 500 ∧
        (processP1 env fs0).response.body.success = none ∧
        (processP1 env fs0).response.body.error ≠ none)) ∧
    (∀ (env : P2Env) (fs0 : FS),
      ((processP2 env fs0).response.body.success = some true →
        ∃ s, (processP2 env fs0).response.body.output = some s ∧ s ≠ "") ∧
      ((processP2 env fs0).response.body.success ≠ some true →
        (processP2 env fs0).response.body.success = none ∧
        (processP2 env fs0).response.body.error ≠ none)) := by
  refine ⟨?_, ?_, ?_, fun env fs0 => processP2_response_shape env fs0⟩
  · intro env fs0
    unfold processServer
    dsimp only
    rcases ht : (serverTry env fs0).1 with m | out
    · simp only [ht]
      simp [emptyBody]
    · simp only [ht]
      have := serverTry_ok_ne_empty env fs0 out ht
      simp [emptyBody, this]
  · intro env fs0
    unfold processP0
    dsimp only
    rcases ht : (p0Try env fs0).1 with m | out
    · simp only [ht]
      have hs := p0ErrorHandler_shape { message := m, isMulterError := false }
      have hst : (p0ErrorHandler { message := m, isMulterError := false }).status
          = 500 := by
        simp [p0ErrorHandler]
      simp [hs.1, hs.2.1, hs.2.2, hst]
    · simp only [ht]
      have := p0Try_ok_ne_empty env fs0 out ht
      simp [emptyBody, this]
  · intro env fs0
    unfold processP1
    dsimp only
    rcases hf : env.file with _ | f
    · simp only [hf]
      have hs := p0ErrorHandler_shape { message := "No file uploaded.", isMulterError := false }
      have hst : (p0ErrorHandler { message := "No file uploaded.", isMulterError := false }).status = 500 := by
        simp [p0ErrorHandler]
      simp [hs.1, hs.2.1, hst]
    · by_cases hp : f.path = ""
      · simp only [hf, hp]
        have hs := p0ErrorHandler_shape
          { message := "No file uploaded.", isMulterError := false }
        have hst : (p0ErrorHandler
            { message := "No file uploaded.", isMulterError := false }).status = 500 := by
          simp [p0ErrorHandler]
        simp [hs.1, hs.2.1, hst]
      · rcases hg : groqCallP0P1 env.groq with m | out
        · simp only [hf, hg, if_neg hp]
          have hs := p0ErrorHandler_shape { message := m, isMulterError := false }
          have hst : (p0ErrorHandler { message := m, isMulterError := false }).status
              = 500 := by
            simp [p0ErrorHandler]
          simp [hs.1, hs.2.1, hst]
        · simp only [hf, hg, if_neg hp]
          have hne := groqCallP0P1_ok_ne_empty env.groq out hg
          simp [emptyBody, hne]

/-- C7 witness: a concrete success has non-empty output and a concrete
part_000 failure still carries an error message. -/
theorem C7_response_envelope_witness :
    (∃ s, (processServer serverEnvW fsW).response.body.output = some s ∧ s ≠ "") ∧
    (processP0 p0EnvNoFile fsW).response.body.error ≠ none :=
  ⟨(C7_response_envelope.1 serverEnvW fsW).1 (by decide),
   ((C7_response_envelope.2.1 p0EnvNoFile fsW).2 (by decide)).2.2⟩

/-- C8 counterexample: sanitization replaces disallowed characters with
underscores (itself outside the allowed class) instead of stripping
them: the stored name of "a b.png" at timestamp 5 is "5-a_b.png", not
the "5-ab.png" that stripping would produce. -/
theorem C8_sanitize_counterexample :
    storedFilename 5 "a b.png" = "5-a_b.png" ∧
    storedFilenameSpec 5 "a b.png" = "5-ab.png" ∧
    storedFilename 5 "a b.png" ≠ storedFilenameSpec 5 "a b.png" := by
  decide

/-- C8 amended: the stored name is `{timestamp}-{sanitized}` where
sanitization replaces (length-preserving, not strips) every character
outside `[a-zA-Z0-9.-]` with an underscore; consequently every
character of the sanitized name is allow-listed or an underscore, and
in particular no path separator survives. -/
theorem C8_filename_sanitization (ts : Nat) (orig : String) :
    storedFilename ts orig = toString ts ++ "-" ++ sanitizeFilename orig ∧
    (sanitizeFilename orig).data.length = orig.data.length ∧
    ∀ c ∈ (sanitizeFilename orig).data,
      (allowedFilenameChar c = true ∨ c = '_') ∧ c ≠ '/' := by
  refine ⟨rfl, by simp [sanitizeFilename], ?_⟩
  intro c hc
  rcases List.mem_map.mp (by simpa [sanitizeFilename] using hc) with ⟨a, _, ha⟩
  by_cases h : allowedFilenameChar a = true
  · have hca : c = a := by rw [if_pos h] at ha; exact ha.symm
    subst hca
    refine ⟨Or.inl h, ?_⟩
    intro hslash
    rw [hslash] at h
    exact absurd h (by decide)
  · have hca : c = '_' := by rw [if_neg h] at ha; exact ha.symm
    subst hca
    exact ⟨Or.inr rfl, by decide⟩

/-- C8 witness: the sanitized "a b.png" keeps its length and its
underscore is accounted for by the amended clause. -/
theorem C8_filename_sanitization_witness :
    (sanitizeFilename "a b.png").data.length = ("a b.png" : String).data.length ∧
    ((allowedFilenameChar '_' = true ∨ '_' = '_') ∧ '_' ≠ '/') :=
  ⟨(C8_filename_sanitization 5 "a b.png").2.1,
   (C8_filename_sanitization 5 "a b.png").2.2 '_' (by decide)⟩

/-- C9 counterexample: a 10001-character parsed markdown is truncated to
the 10000-character prefix plus the 23-character marker, so the content
placed in the completion request is 10023 characters — above the
configured maximum of 10000. -/
theorem longContent_length : longContent.data.length = 10001 := by
  have h : longContent.data = List.replicate 10001 'a' := rfl
  rw [h, List.length_replicate]

theorem C9_truncation_exceeds_max_counterexample :
    (truncateContent longContent).data.length = 10023 ∧
    maxContentLength = 10000 ∧
    (truncateContent longContent).data.length > maxContentLength := by
  have hmx : maxContentLength = 10000 := rfl
  have hgt : longContent.data.length > maxContentLength := by
    rw [longContent_length, hmx]
    omega
  have hm : truncationMarker.data.length = 23 := by decide
  have hlen : (truncateContent longContent).data.length = 10023 := by
    unfold truncateContent
    rw [if_pos hgt]
    have h1 : (String.mk (longContent.data.take maxContentLength)
        ++ truncationMarker).data
        = longContent.data.take maxContentLength ++ truncationMarker.data := by
      rw [String.data_append]
    rw [h1, List.length_append, List.length_take, longContent_length, hm, hmx]
    decide
  exact ⟨hlen, rfl, by rw [hlen, hmx]; omega⟩

/-- C9 amended: content at most 10000 characters is sent unchanged;
longer content is cut to the 10000-character prefix with the fixed
23-character truncation marker appended, so the content part of the
completion request is bounded by 10023 = maxContentLength + 23
characters (not by maxContentLength itself). -/
theorem C9_truncation_bound (s : String) :
    (s.data.length ≤ maxContentLength → truncateContent s = s) ∧
    (s.data.length > maxContentLength →
      (truncateContent s).data.length
        = maxContentLength + truncationMarker.data.length) ∧
    (truncateContent s).data.length
      ≤ maxContentLength + truncationMarker.data.length := by
  have hm : truncationMarker.data.length = 23 := by decide
  have h1 : s.data.length ≤ maxContentLength → truncateContent s = s := by
    intro h
    unfold truncateContent
    rw [if_neg (Nat.not_lt.mpr h)]
  have h2 : s.data.length > maxContentLength →
      (truncateContent s).data.length
        = maxContentLength + truncationMarker.data.length := by
    intro h
    unfold truncateContent
    rw [if_pos h]
    simp only [String.data_append, List.length_append, List.length_take]
    omega
  refine ⟨h1, h2, ?_⟩
  by_cases h : s.data.length > maxContentLength
  · rw [h2 h]
  · rw [h1 (Nat.not_lt.mp h)]
    have := Nat.not_lt.mp h
    omega

/-- C9 witness: short content passes unchanged; the 10001-character
content comes out at exactly 10023 characters. -/
theorem C9_truncation_bound_witness :
    truncateContent "md" = "md" ∧
    (truncateContent longContent).data.length
      = maxContentLength + truncationMarker.data.length :=
  ⟨(C9_truncation_bound "md").1 (by decide),
   (C9_truncation_bound longContent).2.1
     (by rw [longContent_length]; decide)⟩

/-- C10: part_001 never reads the `prompt` form field — two requests
differing only in that field produce identical handler outcomes
(response, filesystem effects, upstream call count, and the completion
request payload actually sent). -/
theorem C10_prompt_independence (file : Option IncomingFile) (p q : Option String)
    (b64 : String) (g : GroqResp) (fs0 : FS) :
    processP1 { file := file, promptField := p, fileBase64 := b64, groq := g } fs0
      = processP1 { file := file, promptField := q, fileBase64 := b64, groq := g } fs0 :=
  rfl
